import Mathlib

/-!
Verification development for the `fokus-pomodoro` timer core
(`src/components/Timer.ts`, class `PomodoroTimer`).

The TypeScript class is embedded shallowly.  Timer fields become a `Timer`
structure; the browser scheduler (`window.setInterval`, `window.clearInterval`,
`setTimeout`) is made explicit as part of an `Env` structure: `intervals` is
the list of currently armed 1 Hz interval ids in arming order, `nextId` the
id the next `setInterval` call returns, and `pendingAdvances` counts deferred
`setTimeout(advanceToNextSession, 1000)` callbacks that have been scheduled
and not yet fired.  Dispatched `timerUpdate` events are appended to `events`.
JS numbers holding whole-second counts and settings are modelled as `Int`
(they are only ever added, subtracted and multiplied in the source);
`progress` is the one genuinely fractional quantity and is modelled as `Rat`.
-/

namespace Fokus

/-- `SESSION_TYPES` from `src/utils/constants.ts`. -/
inductive SessionType where
  | work
  | shortBreak
  | longBreak
deriving DecidableEq, Repr

/-- `TIMER_STATES` from `src/utils/constants.ts`. -/
inductive TimerState where
  | idle
  | running
  | paused
  | completed
deriving DecidableEq, Repr

/-- The `Settings` shape from `src/utils/constants.ts`. -/
structure Settings where
  workDuration : Int
  shortBreak : Int
  longBreak : Int
  sessionsUntilLongBreak : Int
  autoStartBreaks : Bool
  soundEnabled : Bool
deriving DecidableEq, Repr

/-- `DEFAULT_SETTINGS` from `src/utils/constants.ts`. -/
def DEFAULT_SETTINGS : Settings :=
  { workDuration := 25
    shortBreak := 5
    longBreak := 15
    sessionsUntilLongBreak := 4
    autoStartBreaks := false
    soundEnabled := true }

/-- A `Partial<Settings>` value: each field optionally present. -/
structure SettingsPatch where
  workDuration : Option Int
  shortBreak : Option Int
  longBreak : Option Int
  sessionsUntilLongBreak : Option Int
  autoStartBreaks : Option Bool
  soundEnabled : Option Bool
deriving DecidableEq, Repr

/-- The empty patch (`{}`). -/
def SettingsPatch.empty : SettingsPatch :=
  { workDuration := none
    shortBreak := none
    longBreak := none
    sessionsUntilLongBreak := none
    autoStartBreaks := none
    soundEnabled := none }

/-- The spread `{ ...settings, ...newSettings }`: fields present in the patch
override the current settings. -/
def mergeSettings (s : Settings) (p : SettingsPatch) : Settings :=
  { workDuration := p.workDuration.getD s.workDuration
    shortBreak := p.shortBreak.getD s.shortBreak
    longBreak := p.longBreak.getD s.longBreak
    sessionsUntilLongBreak := p.sessionsUntilLongBreak.getD s.sessionsUntilLongBreak
    autoStartBreaks := p.autoStartBreaks.getD s.autoStartBreaks
    soundEnabled := p.soundEnabled.getD s.soundEnabled }

/-- The `TimerEventData` interface of `Timer.ts`. -/
structure TimerEventData where
  timeRemaining : Int
  sessionType : SessionType
  state : TimerState
  sessionsCompleted : Int
  progress : Rat
deriving DecidableEq, Repr

/-- The private fields of class `PomodoroTimer`. -/
structure Timer where
  timeRemaining : Int
  sessionType : SessionType
  state : TimerState
  sessionsCompleted : Int
  intervalId : Option Nat
  settings : Settings
deriving DecidableEq, Repr

/-- A `PomodoroTimer` instance together with the browser scheduler state it
interacts with and the `timerUpdate` events it has dispatched. -/
structure Env where
  timer : Timer
  intervals : List Nat
  pendingAdvances : Nat
  nextId : Nat
  events : List TimerEventData
deriving DecidableEq, Repr

/-- `getCurrentSessionDuration`: the configured duration (minutes) of the
current session type.  (The source's `default` switch arm is unreachable:
the three `case`s cover every `SessionType`.) -/
def getCurrentSessionDuration (t : Timer) : Int :=
  match t.sessionType with
  | SessionType.work => t.settings.workDuration
  | SessionType.shortBreak => t.settings.shortBreak
  | SessionType.longBreak => t.settings.longBreak

/-- The event payload built by `dispatchTimerEvent`:
`progress = totalDuration > 0 ? ((totalDuration - timeRemaining) / totalDuration) * 100 : 0`. -/
def mkSnapshot (t : Timer) : TimerEventData :=
  let totalDuration : Int := getCurrentSessionDuration t * 60
  let progress : Rat :=
    if 0 < totalDuration then
      ((totalDuration - t.timeRemaining : Int) : Rat) / (totalDuration : Rat) * 100
    else 0
  { timeRemaining := t.timeRemaining
    sessionType := t.sessionType
    state := t.state
    sessionsCompleted := t.sessionsCompleted
    progress := progress }

/-- `dispatchTimerEvent`: emit one snapshot of the current state. -/
def dispatchTimerEvent (e : Env) : Env :=
  { e with events := e.events ++ [mkSnapshot e.timer] }

/-- `clearInterval` (the private method): if an interval id is tracked,
cancel that id with the scheduler and forget it.  Untracked (leaked)
interval ids are unaffected. -/
def clearIntervalOp (e : Env) : Env :=
  match e.timer.intervalId with
  | none => e
  | some id =>
      { e with
        timer := { e.timer with intervalId := none }
        intervals := e.intervals.filter (fun i => i ≠ id) }

/-- `window.setInterval(() => this.tick(), 1000)`: the scheduler arms a fresh
interval and returns its id, which the timer stores in `intervalId`.  Note the
source does NOT clear any previously tracked interval here. -/
def setIntervalOp (e : Env) : Env :=
  { e with
    timer := { e.timer with intervalId := some e.nextId }
    intervals := e.intervals ++ [e.nextId]
    nextId := e.nextId + 1 }

/-- `start()`. -/
def start (e : Env) : Env :=
  let e :=
    if e.timer.state = TimerState.idle then
      { e with timer :=
          { e.timer with timeRemaining := getCurrentSessionDuration e.timer * 60 } }
    else e
  let e := { e with timer := { e.timer with state := TimerState.running } }
  let e := setIntervalOp e
  dispatchTimerEvent e

/-- `pause()`. -/
def pause (e : Env) : Env :=
  if e.timer.state = TimerState.running then
    let e := { e with timer := { e.timer with state := TimerState.paused } }
    let e := clearIntervalOp e
    dispatchTimerEvent e
  else e

/-- `resume()`. -/
def resume (e : Env) : Env :=
  if e.timer.state = TimerState.paused then start e else e

/-- `reset()`. -/
def reset (e : Env) : Env :=
  let e := { e with timer := { e.timer with state := TimerState.idle } }
  let e := clearIntervalOp e
  let e := { e with timer :=
      { e.timer with timeRemaining := getCurrentSessionDuration e.timer * 60 } }
  dispatchTimerEvent e

/-- JS `a % b === 0` on whole numbers.  For `b ≠ 0` the JS remainder is zero
exactly when `b` divides `a`, which agrees with Lean's `Int` remainder; for
`b = 0` the JS remainder is `NaN` and `NaN === 0` is `false`. -/
def jsRemIsZero (a b : Int) : Bool :=
  if b = 0 then false else a % b = 0

/-- `getNextSessionType()`. -/
def getNextSessionType (t : Timer) : SessionType :=
  if t.sessionType = SessionType.work then
    if jsRemIsZero t.sessionsCompleted t.settings.sessionsUntilLongBreak then
      SessionType.longBreak
    else SessionType.shortBreak
  else SessionType.work

/-- `completeSession()`: mark COMPLETED, cancel the tracked interval, count a
completed WORK session, emit a snapshot, and schedule the deferred
`advanceToNextSession` via `setTimeout(..., 1000)`. -/
def completeSession (e : Env) : Env :=
  let e := { e with timer := { e.timer with state := TimerState.completed } }
  let e := clearIntervalOp e
  let e :=
    if e.timer.sessionType = SessionType.work then
      { e with timer :=
          { e.timer with sessionsCompleted := e.timer.sessionsCompleted + 1 } }
    else e
  let e := dispatchTimerEvent e
  { e with pendingAdvances := e.pendingAdvances + 1 }

/-- `skip()`. -/
def skip (e : Env) : Env :=
  completeSession e

/-- `tick()`: decrement unconditionally; on reaching `<= 0` complete the
session, otherwise emit a snapshot. -/
def tick (e : Env) : Env :=
  let e := { e with timer :=
      { e.timer with timeRemaining := e.timer.timeRemaining - 1 } }
  if e.timer.timeRemaining ≤ 0 then completeSession e else dispatchTimerEvent e

/-- `updateSettings(newSettings)`. -/
def updateSettings (e : Env) (p : SettingsPatch) : Env :=
  let e := { e with timer :=
      { e.timer with settings := mergeSettings e.timer.settings p } }
  if e.timer.state = TimerState.idle then
    let e := { e with timer :=
        { e.timer with timeRemaining := getCurrentSessionDuration e.timer * 60 } }
    dispatchTimerEvent e
  else e

/-- `advanceToNextSession()` (the body of the deferred callback). -/
def advanceToNextSession (e : Env) : Env :=
  let e := { e with timer :=
      { e.timer with sessionType := getNextSessionType e.timer } }
  let e := { e with timer :=
      { e.timer with timeRemaining := getCurrentSessionDuration e.timer * 60 } }
  let e := { e with timer := { e.timer with state := TimerState.idle } }
  if e.timer.settings.autoStartBreaks ∧ e.timer.sessionType ≠ SessionType.work then
    start e
  else dispatchTimerEvent e

/-- The constructor `new PomodoroTimer(settings?)`: fields start at their
declared initializers, an optional patch is applied via `updateSettings`,
then `reset()` runs. -/
def mkTimer (p : Option SettingsPatch) : Env :=
  let t : Timer :=
    { timeRemaining := 0
      sessionType := SessionType.work
      state := TimerState.idle
      sessionsCompleted := 0
      intervalId := none
      settings := DEFAULT_SETTINGS }
  let e : Env :=
    { timer := t, intervals := [], pendingAdvances := 0, nextId := 0, events := [] }
  let e := match p with
    | some patch => updateSettings e patch
    | none => e
  reset e

/-- Advancing the wall clock by one second: every interval armed at the start
of the second fires `tick`, in arming order, unless an earlier callback in the
same second cancelled it. -/
def elapseOneSecond (e : Env) : Env :=
  e.intervals.foldl (fun acc id => if id ∈ acc.intervals then tick acc else acc) e

/-- The most recently dispatched `timerUpdate` event. -/
def lastEvent (e : Env) : Option TimerEventData :=
  e.events.getLast?

/-- One full manual session turnover: `skip()` followed by the deferred
`advanceToNextSession` firing. -/
def skipAdvance (e : Env) : Env :=
  advanceToNextSession (skip e)

/-- Concrete run exercising a mid-session settings shrink: construct with
defaults, `start()`, one tick, `updateSettings({workDuration: 1})` while
RUNNING, one more tick. -/
def shrinkScenario : Env :=
  tick (updateSettings (tick (start (mkTimer none)))
    { SettingsPatch.empty with workDuration := some 1 })

/-! ## Helper lemmas -/

theorem events_dispatch (e : Env) :
    (dispatchTimerEvent e).events = e.events ++ [mkSnapshot e.timer] := rfl

theorem timer_dispatch (e : Env) : (dispatchTimerEvent e).timer = e.timer := rfl

theorem events_clearIntervalOp (e : Env) :
    (clearIntervalOp e).events = e.events := by
  unfold clearIntervalOp
  cases e.timer.intervalId <;> rfl

theorem lastEvent_dispatch (e : Env) :
    lastEvent (dispatchTimerEvent e) = some (mkSnapshot e.timer) := by
  simp [lastEvent, dispatchTimerEvent]

theorem clearIntervalOp_timer (e : Env) :
    (clearIntervalOp e).timer = { e.timer with intervalId := none } := by
  obtain ⟨⟨rem, ty, st, sc, iid, s⟩, ints, pa, ni, evs⟩ := e
  cases iid <;> rfl

theorem start_timer (e : Env) :
    (start e).timer =
      { e.timer with
        timeRemaining :=
          if e.timer.state = TimerState.idle
          then getCurrentSessionDuration e.timer * 60
          else e.timer.timeRemaining
        state := TimerState.running
        intervalId := some e.nextId } := by
  obtain ⟨⟨rem, ty, st, sc, iid, s⟩, ints, pa, ni, evs⟩ := e
  cases st <;> rfl

theorem reset_timer (e : Env) :
    (reset e).timer =
      { e.timer with
        timeRemaining := getCurrentSessionDuration e.timer * 60
        state := TimerState.idle
        intervalId := none } := by
  obtain ⟨⟨rem, ty, st, sc, iid, s⟩, ints, pa, ni, evs⟩ := e
  cases iid <;> rfl

theorem completeSession_timer (e : Env) :
    (completeSession e).timer =
      { e.timer with
        state := TimerState.completed
        intervalId := none
        sessionsCompleted :=
          if e.timer.sessionType = SessionType.work
          then e.timer.sessionsCompleted + 1
          else e.timer.sessionsCompleted } := by
  obtain ⟨⟨rem, ty, st, sc, iid, s⟩, ints, pa, ni, evs⟩ := e
  cases iid <;> cases ty <;> rfl

theorem lastEvent_completeSession (e : Env) :
    lastEvent (completeSession e) = some (mkSnapshot (completeSession e).timer) := by
  obtain ⟨⟨rem, ty, st, sc, iid, s⟩, ints, pa, ni, evs⟩ := e
  cases iid <;> cases ty <;>
    simp [completeSession, clearIntervalOp, dispatchTimerEvent, lastEvent,
      List.getLast?_concat]

theorem lastEvent_reset (e : Env) :
    lastEvent (reset e) = some (mkSnapshot (reset e).timer) := by
  unfold reset
  rw [lastEvent_dispatch, timer_dispatch]

theorem lastEvent_start (e : Env) :
    lastEvent (start e) = some (mkSnapshot (start e).timer) := by
  unfold start
  rw [lastEvent_dispatch, timer_dispatch]

theorem events_length_start (e : Env) :
    (start e).events.length = e.events.length + 1 := by
  obtain ⟨⟨rem, ty, st, sc, iid, s⟩, ints, pa, ni, evs⟩ := e
  cases st <;> simp [start, setIntervalOp, dispatchTimerEvent]

theorem events_length_reset (e : Env) :
    (reset e).events.length = e.events.length + 1 := by
  obtain ⟨⟨rem, ty, st, sc, iid, s⟩, ints, pa, ni, evs⟩ := e
  cases iid <;> simp [reset, clearIntervalOp, dispatchTimerEvent]

theorem events_length_completeSession (e : Env) :
    (completeSession e).events.length = e.events.length + 1 := by
  obtain ⟨⟨rem, ty, st, sc, iid, s⟩, ints, pa, ni, evs⟩ := e
  cases iid <;> cases ty <;>
    simp [completeSession, clearIntervalOp, dispatchTimerEvent]

theorem events_length_tick (e : Env) :
    (tick e).events.length = e.events.length + 1 := by
  rcases le_or_lt (e.timer.timeRemaining - 1) 0 with h | h
  · simp [tick, h, events_length_completeSession]
  · simp [tick, h.not_le, dispatchTimerEvent]

theorem events_length_pause (e : Env) :
    (pause e).events.length =
      e.events.length + (if e.timer.state = TimerState.running then 1 else 0) := by
  obtain ⟨⟨rem, ty, st, sc, iid, s⟩, ints, pa, ni, evs⟩ := e
  cases st <;> cases iid <;> simp [pause, clearIntervalOp, dispatchTimerEvent]

theorem events_length_updateSettings (e : Env) (p : SettingsPatch) :
    (updateSettings e p).events.length =
      e.events.length + (if e.timer.state = TimerState.idle then 1 else 0) := by
  obtain ⟨⟨rem, ty, st, sc, iid, s⟩, ints, pa, ni, evs⟩ := e
  cases st <;> simp [updateSettings, dispatchTimerEvent]

theorem events_length_advance (e : Env) :
    (advanceToNextSession e).events.length = e.events.length + 1 := by
  by_cases h : e.timer.settings.autoStartBreaks = true ∧
      getNextSessionType e.timer ≠ SessionType.work
  · simp [advanceToNextSession, h, events_length_start]
  · simp [advanceToNextSession, h, dispatchTimerEvent]

/-! ## Claim theorems -/

/-- C1.  The claim is FALSE of the source: `start()` never clears a
previously armed interval before calling `window.setInterval` again, so a
`start()` issued while already RUNNING leaves TWO armed 1 Hz tick sources,
and one second of wall-clock time decrements `timeRemaining` by two
(1500 → 1498), not by one. -/
theorem start_while_running_double_schedules :
    (start (mkTimer none)).timer.state = TimerState.running ∧
    (start (mkTimer none)).intervals.length = 1 ∧
    (start (start (mkTimer none))).timer.state = TimerState.running ∧
    (start (start (mkTimer none))).intervals.length = 2 ∧
    (start (start (mkTimer none))).timer.timeRemaining = 1500 ∧
    (elapseOneSecond (start (start (mkTimer none)))).timer.timeRemaining = 1498 := by
  decide

/-- C2.  The claim is FALSE of the source: `tick()` has no state guard and
decrements `timeRemaining` unconditionally.  Reachably: construct, `start()`
twice (leaking an interval), `pause()`; the timer is PAUSED at 1500 yet the
leaked interval's tick one second later mutates `timeRemaining` to 1499. -/
theorem tick_while_paused_mutates_state :
    (pause (start (start (mkTimer none)))).timer.state = TimerState.paused ∧
    (pause (start (start (mkTimer none)))).timer.timeRemaining = 1500 ∧
    (pause (start (start (mkTimer none)))).intervals = [0] ∧
    (elapseOneSecond (pause (start (start (mkTimer none))))).timer.timeRemaining = 1499 ∧
    (elapseOneSecond (pause (start (start (mkTimer none))))).timer.state
      = TimerState.paused ∧
    (tick (pause (start (start (mkTimer none))))).timer.timeRemaining = 1499 := by
  decide

/-- C3.  The claim is FALSE of the source: neither the constructor nor
`updateSettings` clamps anything — `{ ...settings, ...newSettings }` stores
values as given.  `updateSettings({workDuration: 0})` while IDLE stores 0 and
re-derives `timeRemaining = 0`; constructing with `workDuration = -5` stores
-5 and yields `timeRemaining = -300`. -/
theorem updateSettings_stores_nonpositive_duration :
    (updateSettings (mkTimer none)
        { SettingsPatch.empty with workDuration := some 0 }).timer.settings.workDuration
      = 0 ∧
    (updateSettings (mkTimer none)
        { SettingsPatch.empty with workDuration := some 0 }).timer.timeRemaining = 0 ∧
    (mkTimer (some { SettingsPatch.empty with
        workDuration := some (-5) })).timer.settings.workDuration = -5 ∧
    (mkTimer (some { SettingsPatch.empty with
        workDuration := some (-5) })).timer.timeRemaining = -300 ∧
    (mkTimer (some { SettingsPatch.empty with
        sessionsUntilLongBreak := some 0 })).timer.settings.sessionsUntilLongBreak
      = 0 := by
  decide

/-- C4 counterexample.  `updateSettings` invoked while RUNNING dispatches no
event at all (the source only dispatches in the IDLE branch): after
construct-then-`start()` the timer is RUNNING with 2 events dispatched, and
`updateSettings({workDuration: 10})` leaves the event count at 2. -/
theorem updateSettings_while_running_emits_nothing :
    (start (mkTimer none)).timer.state = TimerState.running ∧
    (start (mkTimer none)).events.length = 2 ∧
    (updateSettings (start (mkTimer none))
        { SettingsPatch.empty with workDuration := some 10 }).events.length = 2 := by
  decide

/-- C4 amended.  `start`, `reset`, `skip`, `tick` and the automatic advance
each synchronously append exactly one snapshot event; `pause` appends exactly
one when RUNNING and none otherwise; `updateSettings` appends exactly one
when IDLE and none when RUNNING, PAUSED or COMPLETED. -/
theorem snapshot_emission_counts (e : Env) (p : SettingsPatch) :
    (start e).events.length = e.events.length + 1 ∧
    (reset e).events.length = e.events.length + 1 ∧
    (skip e).events.length = e.events.length + 1 ∧
    (tick e).events.length = e.events.length + 1 ∧
    (advanceToNextSession e).events.length = e.events.length + 1 ∧
    (pause e).events.length =
      e.events.length + (if e.timer.state = TimerState.running then 1 else 0) ∧
    (updateSettings e p).events.length =
      e.events.length + (if e.timer.state = TimerState.idle then 1 else 0) :=
  ⟨events_length_start e, events_length_reset e, events_length_completeSession e,
   events_length_tick e, events_length_advance e, events_length_pause e,
   events_length_updateSettings e p⟩

/-- C5.  Session sequencing: completing a session and letting the deferred
advance fire yields LONG_BREAK exactly when the just-incremented
`sessionsCompleted` is a nonzero multiple of `sessionsUntilLongBreak` after a
WORK session, SHORT_BREAK otherwise, and WORK after any break; concretely,
with the default `sessionsUntilLongBreak = 4`, the breaks entered after
completed work sessions 1, 2 and 3 are SHORT_BREAK and the break after the
4th is LONG_BREAK. -/
theorem session_sequencing (e : Env) :
    ((advanceToNextSession (completeSession e)).timer.sessionType =
      match e.timer.sessionType with
      | SessionType.work =>
          if jsRemIsZero (e.timer.sessionsCompleted + 1)
              e.timer.settings.sessionsUntilLongBreak
          then SessionType.longBreak
          else SessionType.shortBreak
      | _ => SessionType.work) ∧
    (skipAdvance^[1] (mkTimer none)).timer.sessionType = SessionType.shortBreak ∧
    (skipAdvance^[3] (mkTimer none)).timer.sessionType = SessionType.shortBreak ∧
    (skipAdvance^[5] (mkTimer none)).timer.sessionType = SessionType.shortBreak ∧
    (skipAdvance^[7] (mkTimer none)).timer.sessionType = SessionType.longBreak ∧
    (skipAdvance^[7] (mkTimer none)).timer.sessionsCompleted = 4 := by
  refine ⟨?_, by decide, by decide, by decide, by decide, by decide⟩
  obtain ⟨⟨rem, ty, st, sc, iid, s⟩, ints, pa, ni, evs⟩ := e
  cases iid <;> cases ty <;>
    simp [completeSession, advanceToNextSession, clearIntervalOp,
      dispatchTimerEvent, start, setIntervalOp, getNextSessionType,
      getCurrentSessionDuration] <;>
    (repeat' split) <;> rfl

/-- C6.  The automatic advance sets `sessionType` to the next type, sets
`timeRemaining` to that type's full duration in seconds, and lands in RUNNING
exactly when the new type is a break and `autoStartBreaks` is set — so in
particular a new WORK session never auto-starts. -/
theorem advance_configures_next_session (e : Env) :
    (advanceToNextSession e).timer.sessionType = getNextSessionType e.timer ∧
    (advanceToNextSession e).timer.timeRemaining =
      getCurrentSessionDuration
        { e.timer with sessionType := getNextSessionType e.timer } * 60 ∧
    (advanceToNextSession e).timer.state =
      (if e.timer.settings.autoStartBreaks = true ∧
          getNextSessionType e.timer ≠ SessionType.work
       then TimerState.running else TimerState.idle) := by
  by_cases h : e.timer.settings.autoStartBreaks = true ∧
      getNextSessionType e.timer ≠ SessionType.work <;>
    simp [advanceToNextSession, start, setIntervalOp, dispatchTimerEvent,
      getCurrentSessionDuration, h]

/-- C7.  `reset()` from any state lands in IDLE with `timeRemaining` equal to
the current session type's configured duration times 60 and the session type
unchanged, and a second `reset()` emits the very same snapshot. -/
theorem reset_properties (e : Env) :
    (reset e).timer.state = TimerState.idle ∧
    (reset e).timer.timeRemaining = getCurrentSessionDuration e.timer * 60 ∧
    (reset e).timer.sessionType = e.timer.sessionType ∧
    lastEvent (reset (reset e)) = lastEvent (reset e) := by
  have h : (reset (reset e)).timer = (reset e).timer := by
    rw [reset_timer (reset e), reset_timer e]
    rfl
  exact ⟨by rw [reset_timer], by rw [reset_timer], by rw [reset_timer],
    by rw [lastEvent_reset, lastEvent_reset, h]⟩

/-- C8.  `updateSettings` always stores the merged settings and never touches
`state` or `sessionType`; it re-derives `timeRemaining` from the (possibly
changed) duration of the current session type exactly when IDLE, and leaves
`timeRemaining` untouched when RUNNING, PAUSED or COMPLETED. -/
theorem updateSettings_frame (e : Env) (p : SettingsPatch) :
    (updateSettings e p).timer.settings = mergeSettings e.timer.settings p ∧
    (updateSettings e p).timer.state = e.timer.state ∧
    (updateSettings e p).timer.sessionType = e.timer.sessionType ∧
    (updateSettings e p).timer.timeRemaining =
      (if e.timer.state = TimerState.idle
       then getCurrentSessionDuration
              { e.timer with settings := mergeSettings e.timer.settings p } * 60
       else e.timer.timeRemaining) := by
  obtain ⟨⟨rem, ty, st, sc, iid, s⟩, ints, pa, ni, evs⟩ := e
  cases st <;>
    simp [updateSettings, dispatchTimerEvent, getCurrentSessionDuration]

/-- A RUNNING work session with one second left (default settings). -/
def oneSecondLeft : Env :=
  { timer :=
      { timeRemaining := 1
        sessionType := SessionType.work
        state := TimerState.running
        sessionsCompleted := 0
        intervalId := some 0
        settings := DEFAULT_SETTINGS }
    intervals := [0]
    pendingAdvances := 0
    nextId := 1
    events := [] }

theorem completeSession_pendingAdvances (e : Env) :
    (completeSession e).pendingAdvances = e.pendingAdvances + 1 := by
  obtain ⟨⟨rem, ty, st, sc, iid, s⟩, ints, pa, ni, evs⟩ := e
  cases iid <;> cases ty <;> rfl

theorem mkSnapshot_progress_of_zero_rem (t : Timer) (h : t.timeRemaining = 0)
    (hT : 0 < getCurrentSessionDuration t) : (mkSnapshot t).progress = 100 := by
  have hT60 : (0 : Int) < getCurrentSessionDuration t * 60 := by omega
  have hne : ((getCurrentSessionDuration t * 60 : Int) : Rat) ≠ 0 := by
    have h0 : (getCurrentSessionDuration t * 60 : Int) ≠ 0 := by omega
    exact_mod_cast h0
  simp only [mkSnapshot, if_pos hT60, h, sub_zero]
  rw [div_self hne]
  norm_num

/-- C9 counterexample.  Emitted progress is NOT always in [0,100]: after
`start()` (work, 25 min), one tick, `updateSettings({workDuration: 1})`
while RUNNING (which leaves `timeRemaining` at 1499) and one more tick, the
dispatched snapshot has `progress = ((60 - 1498) / 60) * 100 = -7190/3`,
far below 0. -/
theorem progress_leaves_range_on_midrun_shrink :
    (lastEvent shrinkScenario).map TimerEventData.progress
      = some (-7190 / 3 : Rat) ∧
    (-7190 / 3 : Rat) < 0 ∧
    shrinkScenario.timer.state = TimerState.running ∧
    shrinkScenario.timer.timeRemaining = 1498 := by
  have h : (lastEvent shrinkScenario).map TimerEventData.progress =
      some ((mkSnapshot
        { timeRemaining := 1498
          sessionType := SessionType.work
          state := TimerState.running
          sessionsCompleted := 0
          intervalId := some 0
          settings :=
            { workDuration := 1, shortBreak := 5, longBreak := 15,
              sessionsUntilLongBreak := 4, autoStartBreaks := false,
              soundEnabled := true } }).progress) := rfl
  refine ⟨?_, by norm_num, by decide, by decide⟩
  rw [h]
  simp only [mkSnapshot, getCurrentSessionDuration]
  norm_num

/-- C9 amended.  Every snapshot's progress is computed by the guarded formula
`totalDuration > 0 ? ((totalDuration - remaining) / totalDuration) * 100 : 0`
(so no division by zero ever occurs); it lies in [0,100] whenever
`0 ≤ remaining ≤ totalDuration`; it is 0 in the snapshot emitted by an
IDLE→RUNNING `start()`; and it is exactly 100 in the snapshot emitted when a
tick brings the remaining time to 0 — but it is NOT clamped, so snapshots
after a mid-session settings shrink can fall outside [0,100]. -/
theorem progress_formula_and_bounds (t : Timer) (e : Env) :
    ((mkSnapshot t).progress =
      if 0 < getCurrentSessionDuration t * 60 then
        ((getCurrentSessionDuration t * 60 - t.timeRemaining : Int) : Rat)
          / ((getCurrentSessionDuration t * 60 : Int) : Rat) * 100
      else 0) ∧
    (0 ≤ t.timeRemaining → t.timeRemaining ≤ getCurrentSessionDuration t * 60 →
      0 ≤ (mkSnapshot t).progress ∧ (mkSnapshot t).progress ≤ 100) ∧
    (e.timer.state = TimerState.idle →
      (lastEvent (start e)).map TimerEventData.progress = some 0) ∧
    (e.timer.timeRemaining = 1 → 0 < getCurrentSessionDuration e.timer →
      (lastEvent (tick e)).map TimerEventData.progress = some 100) := by
  refine ⟨rfl, ?_, ?_, ?_⟩
  · intro h0 h1
    by_cases hT : 0 < getCurrentSessionDuration t * 60
    · have hTQ : (0 : Rat) < ((getCurrentSessionDuration t * 60 : Int) : Rat) := by
        exact_mod_cast hT
      have hnum : (0 : Rat) ≤
          ((getCurrentSessionDuration t * 60 - t.timeRemaining : Int) : Rat) := by
        have : (0 : Int) ≤ getCurrentSessionDuration t * 60 - t.timeRemaining := by
          omega
        exact_mod_cast this
      have hfrac : ((getCurrentSessionDuration t * 60 - t.timeRemaining : Int) : Rat)
          / ((getCurrentSessionDuration t * 60 : Int) : Rat) ≤ 1 := by
        rw [div_le_one hTQ]
        have : (getCurrentSessionDuration t * 60 - t.timeRemaining : Int)
            ≤ getCurrentSessionDuration t * 60 := by omega
        exact_mod_cast this
      have hfrac0 : (0 : Rat) ≤
          ((getCurrentSessionDuration t * 60 - t.timeRemaining : Int) : Rat)
            / ((getCurrentSessionDuration t * 60 : Int) : Rat) :=
        div_nonneg hnum hTQ.le
      constructor
      · simp only [mkSnapshot, if_pos hT]
        nlinarith
      · simp only [mkSnapshot, if_pos hT]
        nlinarith
    · constructor <;> simp [mkSnapshot, hT]
  · intro hidle
    rw [lastEvent_start, start_timer]
    simp [hidle, mkSnapshot, getCurrentSessionDuration]
  · intro h1 hT
    have hle : e.timer.timeRemaining - 1 ≤ 0 := by omega
    have htick : tick e = completeSession
        { e with timer := { e.timer with
            timeRemaining := e.timer.timeRemaining - 1 } } := by
      simp [tick, hle]
    have hrem : (completeSession { e with timer := { e.timer with
        timeRemaining := e.timer.timeRemaining - 1 } }).timer.timeRemaining = 0 := by
      rw [completeSession_timer]
      show e.timer.timeRemaining - 1 = 0
      omega
    have hdur : 0 < getCurrentSessionDuration (completeSession { e with
        timer := { e.timer with
          timeRemaining := e.timer.timeRemaining - 1 } }).timer := by
      rw [completeSession_timer]
      exact hT
    have h100 := mkSnapshot_progress_of_zero_rem _ hrem hdur
    rw [htick, lastEvent_completeSession]
    simp [h100]

/-- C9 amended, witness: concrete instantiations discharging each
hypothesis — the freshly constructed timer's snapshot is within bounds,
`start()` from IDLE emits progress 0, and ticking a RUNNING work session
with one second left emits progress 100. -/
theorem progress_formula_and_bounds_witness :
    (0 ≤ (mkSnapshot (mkTimer none).timer).progress ∧
      (mkSnapshot (mkTimer none).timer).progress ≤ 100) ∧
    (lastEvent (start (mkTimer none))).map TimerEventData.progress = some 0 ∧
    (lastEvent (tick oneSecondLeft)).map TimerEventData.progress = some 100 :=
  ⟨(progress_formula_and_bounds (mkTimer none).timer (mkTimer none)).2.1
      (by decide) (by decide),
   (progress_formula_and_bounds (mkTimer none).timer (mkTimer none)).2.2.1
      (by decide),
   (progress_formula_and_bounds oneSecondLeft.timer oneSecondLeft).2.2.2
      (by decide) (by decide)⟩

/-- C10.  `skip()` on a timer whose session type is WORK — in ANY state,
including an already-COMPLETED one — sets the state to COMPLETED, increments
`sessionsCompleted`, leaves `timeRemaining` untouched (it is not zeroed), and
schedules one more deferred auto-advance; hence two consecutive `skip()`
calls count the same work session twice and schedule two deferred
auto-advances. -/
theorem skip_work_semantics (e : Env)
    (hw : e.timer.sessionType = SessionType.work) :
    (skip e).timer.state = TimerState.completed ∧
    (skip e).timer.sessionsCompleted = e.timer.sessionsCompleted + 1 ∧
    (skip e).timer.timeRemaining = e.timer.timeRemaining ∧
    (skip e).timer.sessionType = SessionType.work ∧
    (skip e).pendingAdvances = e.pendingAdvances + 1 ∧
    (skip (skip e)).timer.sessionsCompleted = e.timer.sessionsCompleted + 2 ∧
    (skip (skip e)).pendingAdvances = e.pendingAdvances + 2 := by
  refine ⟨?_, ?_, ?_, ?_, ?_, ?_, ?_⟩ <;>
    simp [skip, completeSession_timer, completeSession_pendingAdvances, hw]
  omega

/-- C10 witness: a fresh default timer (WORK, IDLE) skipped twice. -/
theorem skip_work_semantics_witness :
    (skip (mkTimer none)).timer.timeRemaining
        = (mkTimer none).timer.timeRemaining ∧
    (skip (skip (mkTimer none))).timer.sessionsCompleted
        = (mkTimer none).timer.sessionsCompleted + 2 ∧
    (skip (skip (mkTimer none))).pendingAdvances
        = (mkTimer none).pendingAdvances + 2 := by
  have h := skip_work_semantics (mkTimer none) (by decide)
  exact ⟨h.2.2.1, h.2.2.2.2.2.1, h.2.2.2.2.2.2⟩

end Fokus
